import Mathlib

set_option autoImplicit false

/-!
Verification of the persistent-event-loop bridge of the tutoriapp backend
(`src/services/db.py`) and of the user-payload shaping of the user services
(`src/services/users.py`, `src/services/auth.py`).

The database driver (the `prisma` client) is external to the repository, so
its operations are modelled as oracles: an environment decides whether each
successive `connect()` / `disconnect()` call succeeds, and query results are
inputs to the embedded service logic.  Everything else is translated directly
from the Python source.
-/

namespace Tutoriapp

/-- Decidable equality for `Except`, used to evaluate the embedded
operations on concrete inputs. -/
instance {ε α : Type} [DecidableEq ε] [DecidableEq α] : DecidableEq (Except ε α) := fun a b =>
  match a, b with
  | Except.ok x, Except.ok y =>
    if h : x = y then Decidable.isTrue (by rw [h])
    else Decidable.isFalse (by intro hc; injection hc; exact h (by assumption))
  | Except.error x, Except.error y =>
    if h : x = y then Decidable.isTrue (by rw [h])
    else Decidable.isFalse (by intro hc; injection hc; exact h (by assumption))
  | Except.ok _, Except.error _ => Decidable.isFalse (fun hc => Except.noConfusion hc)
  | Except.error _, Except.ok _ => Decidable.isFalse (fun hc => Except.noConfusion hc)

/-! ## Connection scope guard (`get_db`, src/services/db.py lines 62-94) -/

/-- Observable actions of the guard: calls to `prisma.connect()`,
`prisma.disconnect()`, and the invocation of the guarded body (recording the
client's connection flag at the moment the body starts). -/
inductive Event where
  | connectCall
  | disconnectCall
  | bodyCall (connected : Bool)
deriving DecidableEq

/-- Failures visible to the caller of the guard: an exception raised by the
`n`-th `connect()` call, by the `n`-th `disconnect()` call, or by the guarded
body (carrying the body's exception message). -/
inductive Err where
  | connectErr (n : Nat)
  | disconnectErr (n : Nat)
  | bodyErr (msg : String)
deriving DecidableEq

/-- State of the shared `prisma` client: the connected flag returned by
`is_connected()`, plus counters of how many connect / disconnect calls have
been issued (used to index into the oracle below). -/
structure Client where
  connected : Bool
  nConnect : Nat
  nDisconnect : Nat
deriving DecidableEq

/-- Oracle for the external driver: whether the `n`-th `connect()` call and
the `n`-th `disconnect()` call succeed. -/
structure Env where
  connectOk : Nat → Bool
  disconnectOk : Nat → Bool

/-- Model of `await prisma.connect()`: on success the client becomes
connected; on failure an exception is raised and the flag is unchanged. -/
def connect_op (env : Env) (c : Client) : Except Err Unit × Client :=
  if env.connectOk c.nConnect then
    (Except.ok (), { c with connected := true, nConnect := c.nConnect + 1 })
  else
    (Except.error (Err.connectErr c.nConnect), { c with nConnect := c.nConnect + 1 })

/-- Model of `await prisma.disconnect()`: on success the client becomes
disconnected; on failure an exception is raised and the flag is unchanged. -/
def disconnect_op (env : Env) (c : Client) : Except Err Unit × Client :=
  if env.disconnectOk c.nDisconnect then
    (Except.ok (), { c with connected := false, nDisconnect := c.nDisconnect + 1 })
  else
    (Except.error (Err.disconnectErr c.nDisconnect), { c with nDisconnect := c.nDisconnect + 1 })

/-- Connection-class keywords of src/services/db.py line 86. -/
def connection_keywords : List String := ["not connected", "connection", "query engine"]

/-- Test that a character list starts with a given pattern. -/
def chars_begin_with : List Char → List Char → Bool
  | [], _ => true
  | _ :: _, [] => false
  | p :: ps, c :: cs => p == c && chars_begin_with ps cs

/-- Substring occurrence on character lists: Python's `pat in s`. -/
def chars_contain (pat : List Char) : List Char → Bool
  | [] => pat.isEmpty
  | c :: rest => chars_begin_with pat (c :: rest) || chars_contain pat rest

/-- Substring test: Python's `keyword in error_str`. -/
def contains_sub (s pat : String) : Bool := chars_contain pat.data s.data

/-- Classification of src/services/db.py lines 85-86:
`any(keyword in str(e).lower() for keyword in [...])`. -/
def is_connection_class_msg (msg : String) : Bool :=
  connection_keywords.any (fun k => contains_sub (String.mk (msg.data.map Char.toLower)) k)

/-- Entry phase of `get_db` (lines 69-79): if the client is not connected,
`connect()`; if that raises, a best-effort `disconnect()` (its own errors
swallowed, line 77-78) followed by a second `connect()` whose failure
propagates. -/
def ensure_connected (env : Env) (c0 : Client) : Except Err Unit × Client × List Event :=
  if c0.connected then (Except.ok (), c0, [])
  else
    match connect_op env c0 with
    | (Except.ok _, c1) => (Except.ok (), c1, [Event.connectCall])
    | (Except.error _, c1) =>
      match connect_op env (disconnect_op env c1).2 with
      | (r, c3) => (r, c3, [Event.connectCall, Event.disconnectCall, Event.connectCall])

/-- Repair phase of `get_db` (lines 87-92): a best-effort `disconnect()` run
only when `is_connected()` (its errors swallowed, lines 90-91), then a
`connect()` that is outside any try block, so its failure propagates. -/
def repair_reconnect (env : Env) (c : Client) : Except Err Unit × Client × List Event :=
  if c.connected then
    match connect_op env (disconnect_op env c).2 with
    | (r, c2) => (r, c2, [Event.disconnectCall, Event.connectCall])
  else
    match connect_op env c with
    | (r, c2) => (r, c2, [Event.connectCall])

/-- The `get_db` async context manager (src/services/db.py lines 62-94),
run around a guarded body.  The body is an abstract unit of work: it reads
the connection flag and yields either a result or an exception message,
together with the connection flag it leaves behind.  On a body failure whose
message matches a connection-class keyword the guard runs one repair cycle
and then re-raises the original failure (line 93) - unless the repair's own
`connect()` raised, in which case that exception is the one that escapes.
The success path performs no disconnect (line 94's comment). -/
def get_db {α : Type} (env : Env) (c0 : Client) (body : Bool → Except String α × Bool) :
    Except Err α × Client × List Event :=
  match ensure_connected env c0 with
  | (Except.error e, c, evs) => (Except.error e, c, evs)
  | (Except.ok _, c, evs) =>
    match body c.connected with
    | (Except.ok a, b2) =>
      (Except.ok a, { c with connected := b2 }, evs ++ [Event.bodyCall c.connected])
    | (Except.error msg, b2) =>
      if is_connection_class_msg msg then
        match repair_reconnect env { c with connected := b2 } with
        | (Except.ok _, c2, evr) =>
          (Except.error (Err.bodyErr msg), c2, (evs ++ [Event.bodyCall c.connected]) ++ evr)
        | (Except.error e, c2, evr) =>
          (Except.error e, c2, (evs ++ [Event.bodyCall c.connected]) ++ evr)
      else
        (Except.error (Err.bodyErr msg), { c with connected := b2 }, evs ++ [Event.bodyCall c.connected])

/-! ## Persistent loop manager, sequential model
(`get_persistent_loop`, `run_in_persistent_loop`, `stop_persistent_loop`,
src/services/db.py lines 14-59) -/

/-- An asyncio event loop object: its identity and its `is_closed()` flag. -/
structure EventLoopH where
  id : Nat
  closed : Bool
deriving DecidableEq

/-- Module-level state of src/services/db.py: `_persistent_loop`,
`_loop_thread` (identified by a thread id), and a supply of fresh loop ids. -/
structure LoopState where
  persistent_loop : Option EventLoopH
  loop_thread : Option Nat
  next_id : Nat
deriving DecidableEq

/-- Bound of `loop_ready.wait(timeout=5.0)` at src/services/db.py line 34. -/
def loop_ready_timeout : Nat := 5

/-- Bound of `_loop_thread.join(timeout=2.0)` at src/services/db.py line 56. -/
def loop_join_timeout : Nat := 2

/-- Creation path of `get_persistent_loop` (lines 20-36): spawn the loop
thread and wait for readiness for at most `loop_ready_timeout` time units.
`readyAt` is the time at which the spawned `run_loop` assigns the new loop to
`_persistent_loop` and signals `loop_ready`.  After the wait, line 35 checks
whether `_persistent_loop is None` and raises only in that case; if the wait
timed out but a stale loop object was still assigned, that stale object is
returned (unreachable from the states the program actually produces). -/
def create_loop (s : LoopState) (readyAt : Nat) : Except String (EventLoopH × LoopState) :=
  if readyAt ≤ loop_ready_timeout then
    Except.ok ({ id := s.next_id, closed := false },
      { persistent_loop := some { id := s.next_id, closed := false },
        loop_thread := some s.next_id,
        next_id := s.next_id + 1 })
  else
    match s.persistent_loop with
    | none => Except.error "Failed to create persistent event loop"
    | some l => Except.ok (l, { s with loop_thread := some s.next_id, next_id := s.next_id + 1 })

/-- The `get_persistent_loop` function (lines 14-38): under the lock, if the
loop is `None` or closed (line 19), run the creation path; otherwise return
the existing loop. -/
def get_persistent_loop (s : LoopState) (readyAt : Nat) :
    Except String (EventLoopH × LoopState) :=
  match s.persistent_loop with
  | none => create_loop s readyAt
  | some l => if l.closed then create_loop s readyAt else Except.ok (l, s)

/-- The `run_in_persistent_loop` function (lines 41-45): obtain the loop via
`get_persistent_loop`, schedule the unit of work on it, and return
`future.result()`, which yields the work's value or re-raises its failure. -/
def run_in_persistent_loop {α : Type} (s : LoopState) (readyAt : Nat)
    (work : Except String α) : Except String (α × LoopState) :=
  match get_persistent_loop s readyAt with
  | Except.error e => Except.error e
  | Except.ok (_, s2) =>
    match work with
    | Except.ok a => Except.ok (a, s2)
    | Except.error e => Except.error e

/-- The `stop_persistent_loop` function (lines 48-59): under the lock, if a
loop exists and is not closed, stop it, join the thread, close the loop and
reset both globals to `None`; otherwise do nothing. -/
def stop_persistent_loop (s : LoopState) : LoopState :=
  match s.persistent_loop with
  | none => s
  | some l =>
    if l.closed then s
    else { persistent_loop := none, loop_thread := none, next_id := s.next_id }

/-! ## Synchronous service wrappers (C3 inventory)

Every synchronous service function that reaches the database does so through
a one-line wrapper around its async helper.  The mechanism each wrapper uses
is recorded verbatim from the source: `run_in_persistent_loop(...)` in
src/services/users.py, courses.py and sessions.py, but `asyncio.run(...)` in
src/services/auth.py (lines 42, 78, 118). -/

/-- Mechanism by which a synchronous wrapper executes its async db helper. -/
inductive SyncMech where
  | persistentLoop
  | asyncioRun
deriving DecidableEq

/-- The complete inventory of synchronous, database-touching service
functions of src/services, each paired with the mechanism its body uses. -/
def sync_db_wrappers : List (String × SyncMech) :=
  [("users.find_one", SyncMech.persistentLoop),
   ("users.find_many", SyncMech.persistentLoop),
   ("users.create_user", SyncMech.persistentLoop),
   ("users.update_user", SyncMech.persistentLoop),
   ("users.update_status", SyncMech.persistentLoop),
   ("users.find_many_by_session_id", SyncMech.persistentLoop),
   ("users.find_students_by_tutor_id", SyncMech.persistentLoop),
   ("courses.find_many", SyncMech.persistentLoop),
   ("courses.find_one", SyncMech.persistentLoop),
   ("courses.create", SyncMech.persistentLoop),
   ("courses.update", SyncMech.persistentLoop),
   ("courses.update_status", SyncMech.persistentLoop),
   ("sessions.find_one", SyncMech.persistentLoop),
   ("sessions.find_many_by_tutor_id", SyncMech.persistentLoop),
   ("sessions.find_many", SyncMech.persistentLoop),
   ("sessions.find_many_by_student_id", SyncMech.persistentLoop),
   ("sessions.create_session", SyncMech.persistentLoop),
   ("sessions.update_status", SyncMech.persistentLoop),
   ("sessions.update_session_student_status", SyncMech.persistentLoop),
   ("sessions.create_session_student", SyncMech.persistentLoop),
   ("sessions.get_student_stats", SyncMech.persistentLoop),
   ("sessions.get_student_stats_history", SyncMech.persistentLoop),
   ("sessions.get_tutor_stats", SyncMech.persistentLoop),
   ("auth.login", SyncMech.asyncioRun),
   ("auth.verify_token_and_get_user", SyncMech.asyncioRun),
   ("auth.change_password", SyncMech.asyncioRun)]

/-- The three wrappers of src/services/auth.py, which call `asyncio.run`. -/
def auth_wrappers : List String :=
  ["auth.login", "auth.verify_token_and_get_user", "auth.change_password"]

/-! ## Persistent loop manager, concurrent model (C4)

Interleaving semantics for `n` request threads each executing
`get_persistent_loop` (src/services/db.py lines 14-38) from a fresh process
state.  The `with _loop_lock` block of lines 18-36 is modelled by explicit
acquire / release transitions; the check of line 19, the creation of lines
20-34 and the release at line 36 each require the lock.  The assignment to
`_persistent_loop` performed inside the spawned `run_loop` thread happens
while the creating thread still holds the lock and blocks on `loop_ready`,
so creation is modelled as a single step of the lock holder.  The `return
_persistent_loop` of line 38 happens after the lock is released and is
modelled as a separate unlocked read. -/

/-- Program counter of one thread running `get_persistent_loop`. -/
inductive TPC where
  | start
  | check
  | create
  | unlock
  | reading
  | done (v : Option Nat)
deriving DecidableEq

/-- Shared state for `n` threads: the `_loop_lock` holder, the value of
`_persistent_loop` (a loop id; closing never happens in this scenario), a
counter on the creation path, and every thread's program counter. -/
structure CState (n : Nat) where
  lock : Option (Fin n)
  loop : Option Nat
  created : Nat
  pcs : Fin n → TPC

/-- Threads whose program counter lies inside the `with _loop_lock` block. -/
def inCS : TPC → Bool
  | TPC.check => true
  | TPC.create => true
  | TPC.unlock => true
  | _ => false

/-- One interleaving step of the concurrent `get_persistent_loop` model. -/
inductive LoopStep {n : Nat} : CState n → CState n → Prop where
  | acquire (s : CState n) (i : Fin n) :
      s.pcs i = TPC.start → s.lock = none →
      LoopStep s { s with lock := some i, pcs := Function.update s.pcs i TPC.check }
  | checkLive (s : CState n) (i : Fin n) (l : Nat) :
      s.pcs i = TPC.check → s.lock = some i → s.loop = some l →
      LoopStep s { s with pcs := Function.update s.pcs i TPC.unlock }
  | checkAbsent (s : CState n) (i : Fin n) :
      s.pcs i = TPC.check → s.lock = some i → s.loop = none →
      LoopStep s { s with pcs := Function.update s.pcs i TPC.create }
  | doCreate (s : CState n) (i : Fin n) :
      s.pcs i = TPC.create → s.lock = some i →
      LoopStep s { s with loop := some s.created, created := s.created + 1,
                          pcs := Function.update s.pcs i TPC.unlock }
  | release (s : CState n) (i : Fin n) :
      s.pcs i = TPC.unlock → s.lock = some i →
      LoopStep s { s with lock := none, pcs := Function.update s.pcs i TPC.reading }
  | readLoop (s : CState n) (i : Fin n) :
      s.pcs i = TPC.reading →
      LoopStep s { s with pcs := Function.update s.pcs i (TPC.done s.loop) }

/-- Fresh process state: lock free, `_persistent_loop = None`, nothing
created, every thread about to call `get_persistent_loop`. -/
def initCState (n : Nat) : CState n :=
  { lock := none, loop := none, created := 0, pcs := fun _ => TPC.start }

/-- Inductive invariant of the concurrent model: (1) a thread inside the
locked block owns the lock; (2) the creation counter is 1 precisely when the
loop exists; (3) a thread at the creation step saw the loop absent; (4) a
thread past the check observes an existing loop; (5) a finished thread
returned the current (existing) loop. -/
def LoopInv {n : Nat} (s : CState n) : Prop :=
  (∀ i : Fin n, inCS (s.pcs i) = true → s.lock = some i) ∧
  (s.created = if s.loop.isSome then 1 else 0) ∧
  (∀ i : Fin n, s.pcs i = TPC.create → s.loop = none) ∧
  (∀ i : Fin n, s.pcs i = TPC.unlock ∨ s.pcs i = TPC.reading → s.loop ≠ none) ∧
  (∀ (i : Fin n) (v : Option Nat), s.pcs i = TPC.done v → v = s.loop ∧ v ≠ none)

theorem loopInv_init (n : Nat) : LoopInv (initCState n) := by
  refine ⟨?_, ?_, ?_, ?_, ?_⟩ <;> simp [initCState, inCS]

theorem loopInv_step {n : Nat} {s s' : CState n} (hinv : LoopInv s) (hstep : LoopStep s s') :
    LoopInv s' := by
  obtain ⟨h1, h2, h3, h4, h5⟩ := hinv
  cases hstep with
  | acquire i hpc hlock =>
    refine ⟨?_, h2, ?_, ?_, ?_⟩
    · intro j hj
      dsimp only at hj ⊢
      rw [Function.update_apply] at hj
      by_cases hji : j = i
      · simp [hji]
      · simp only [if_neg hji] at hj
        have := h1 j hj
        rw [hlock] at this
        simp at this
    · intro j hj
      dsimp only at hj ⊢
      rw [Function.update_apply] at hj
      by_cases hji : j = i
      · simp [hji] at hj
      · simp only [if_neg hji] at hj
        exact h3 j hj
    · intro j hj
      dsimp only at hj ⊢
      rw [Function.update_apply] at hj
      by_cases hji : j = i
      · simp [hji] at hj
      · simp only [if_neg hji] at hj
        exact h4 j hj
    · intro j v hj
      dsimp only at hj ⊢
      rw [Function.update_apply] at hj
      by_cases hji : j = i
      · simp [hji] at hj
      · simp only [if_neg hji] at hj
        exact h5 j v hj
  | checkLive i l hpc hlock hloop =>
    refine ⟨?_, h2, ?_, ?_, ?_⟩
    · intro j hj
      dsimp only at hj ⊢
      rw [Function.update_apply] at hj
      by_cases hji : j = i
      · simp [hji, hlock]
      · simp only [if_neg hji] at hj
        exact h1 j hj
    · intro j hj
      dsimp only at hj ⊢
      rw [Function.update_apply] at hj
      by_cases hji : j = i
      · simp [hji] at hj
      · simp only [if_neg hji] at hj
        exact h3 j hj
    · intro j hj
      dsimp only at hj ⊢
      rw [Function.update_apply] at hj
      by_cases hji : j = i
      · simp [hloop]
      · simp only [if_neg hji] at hj
        exact h4 j hj
    · intro j v hj
      dsimp only at hj ⊢
      rw [Function.update_apply] at hj
      by_cases hji : j = i
      · simp [hji] at hj
      · simp only [if_neg hji] at hj
        exact h5 j v hj
  | checkAbsent i hpc hlock hloop =>
    refine ⟨?_, h2, ?_, ?_, ?_⟩
    · intro j hj
      dsimp only at hj ⊢
      rw [Function.update_apply] at hj
      by_cases hji : j = i
      · simp [hji, hlock]
      · simp only [if_neg hji] at hj
        exact h1 j hj
    · intro j hj
      dsimp only
      exact hloop
    · intro j hj
      dsimp only at hj ⊢
      rw [Function.update_apply] at hj
      by_cases hji : j = i
      · simp [hji] at hj
      · simp only [if_neg hji] at hj
        exact h4 j hj
    · intro j v hj
      dsimp only at hj ⊢
      rw [Function.update_apply] at hj
      by_cases hji : j = i
      · simp [hji] at hj
      · simp only [if_neg hji] at hj
        exact h5 j v hj
  | doCreate i hpc hlock =>
    have hloop0 : s.loop = none := h3 i hpc
    have hcr0 : s.created = 0 := by
      rw [h2, hloop0]
      rfl
    refine ⟨?_, ?_, ?_, ?_, ?_⟩
    · intro j hj
      dsimp only at hj ⊢
      rw [Function.update_apply] at hj
      by_cases hji : j = i
      · simp [hji, hlock]
      · simp only [if_neg hji] at hj
        exact h1 j hj
    · dsimp only
      simp [hcr0]
    · intro j hj
      dsimp only at hj ⊢
      rw [Function.update_apply] at hj
      by_cases hji : j = i
      · simp [hji] at hj
      · simp only [if_neg hji] at hj
        have := h1 j (by rw [hj]; rfl)
        rw [hlock] at this
        exact absurd (Option.some.inj this).symm hji
    · intro j hj
      dsimp only
      simp
    · intro j v hj
      dsimp only at hj ⊢
      rw [Function.update_apply] at hj
      by_cases hji : j = i
      · simp [hji] at hj
      · simp only [if_neg hji] at hj
        have hv := (h5 j v hj).1
        rw [hloop0] at hv
        exact absurd hv (h5 j v hj).2
  | release i hpc hlock =>
    refine ⟨?_, h2, ?_, ?_, ?_⟩
    · intro j hj
      dsimp only at hj ⊢
      rw [Function.update_apply] at hj
      by_cases hji : j = i
      · simp [hji, inCS] at hj
      · simp only [if_neg hji] at hj
        have := h1 j hj
        rw [hlock] at this
        exact absurd (Option.some.inj this).symm hji
    · intro j hj
      dsimp only at hj ⊢
      rw [Function.update_apply] at hj
      by_cases hji : j = i
      · simp [hji] at hj
      · simp only [if_neg hji] at hj
        exact h3 j hj
    · intro j hj
      dsimp only at hj ⊢
      rw [Function.update_apply] at hj
      by_cases hji : j = i
      · exact h4 i (Or.inl hpc)
      · simp only [if_neg hji] at hj
        exact h4 j hj
    · intro j v hj
      dsimp only at hj ⊢
      rw [Function.update_apply] at hj
      by_cases hji : j = i
      · simp [hji] at hj
      · simp only [if_neg hji] at hj
        exact h5 j v hj
  | readLoop i hpc =>
    refine ⟨?_, h2, ?_, ?_, ?_⟩
    · intro j hj
      dsimp only at hj ⊢
      rw [Function.update_apply] at hj
      by_cases hji : j = i
      · simp [hji, inCS] at hj
      · simp only [if_neg hji] at hj
        exact h1 j hj
    · intro j hj
      dsimp only at hj ⊢
      rw [Function.update_apply] at hj
      by_cases hji : j = i
      · simp [hji] at hj
      · simp only [if_neg hji] at hj
        exact h3 j hj
    · intro j hj
      dsimp only at hj ⊢
      rw [Function.update_apply] at hj
      by_cases hji : j = i
      · simp [hji] at hj
      · simp only [if_neg hji] at hj
        exact h4 j hj
    · intro j v hj
      dsimp only at hj ⊢
      rw [Function.update_apply] at hj
      by_cases hji : j = i
      · simp only [if_pos hji] at hj
        injection hj with hv
        subst hv
        exact ⟨rfl, h4 i (Or.inr hpc)⟩
      · simp only [if_neg hji] at hj
        exact h5 j v hj

theorem loopInv_reachable {n : Nat} {s : CState n}
    (h : Relation.ReflTransGen LoopStep (initCState n) s) : LoopInv s := by
  induction h with
  | refl => exact loopInv_init n
  | tail _ hstep ih => exact loopInv_step ih hstep

/-! ## User payload shaping (C10)

The dictionaries the user-facing service operations return, embedded from
src/services/users.py and src/services/auth.py.  The Prisma query calls
(`db.user.find_unique`, `db.user.find_many`, `db.user.create`,
`db.user.update`) are external driver operations; their outcomes are inputs
to these definitions, and an `Except.error` input plays the exception the
corresponding `await` would raise. -/

/-- JSON-like value stored in a response dictionary. -/
inductive Val where
  | s (v : String)
  | n (v : Int)
  | b (v : Bool)
  | null
deriving DecidableEq

/-- A Prisma `User` record, with the fields the services read
(id, email, name, password, role, status, created_at, updated_at). -/
structure User where
  id : Int
  email : String
  name : String
  password : String
  role : String
  status : Bool
  created_at : Option String
  updated_at : Option String
deriving DecidableEq

/-- Pydantic's `user.model_dump(mode="json")`: a dictionary of every stored
field of the user, the hashed password included. -/
def model_dump (u : User) : List (String × Val) :=
  [("id", Val.n u.id), ("email", Val.s u.email), ("name", Val.s u.name),
   ("password", Val.s u.password), ("role", Val.s u.role),
   ("status", Val.b u.status),
   ("created_at", match u.created_at with | some d => Val.s d | none => Val.null),
   ("updated_at", match u.updated_at with | some d => Val.s d | none => Val.null)]

/-- Python's `data.pop(key, None)`: remove the key from the dictionary. -/
def dict_pop (d : List (String × Val)) (key : String) : List (String × Val) :=
  d.filter (fun kv => kv.1 ≠ key)

/-- The `_user_to_dict` helper (src/services/users.py lines 13-18):
`model_dump` followed by `data.pop("password", None)`. -/
def user_to_dict (u : User) : List (String × Val) :=
  dict_pop (model_dump u) "password"

/-- Membership of a key in a response dictionary. -/
def has_key (d : List (String × Val)) (key : String) : Bool :=
  d.any (fun kv => kv.1 == key)

/-- Database errors the services distinguish: Prisma's
`RecordNotFoundError` versus any other exception. -/
inductive DbError where
  | recordNotFound
  | other (msg : String)
deriving DecidableEq

/-- The `_find_one` operation (src/services/users.py lines 21-28) given the
outcome of `db.user.find_unique`: the user's dict, or `None` when the user is
missing or the query raised (the except branch returns `None`). -/
def users_find_one (res : Except DbError (Option User)) : Option (List (String × Val)) :=
  match res with
  | Except.ok (some u) => some (user_to_dict u)
  | Except.ok none => none
  | Except.error _ => none

/-- Envelope returned by the list-shaped user queries:
`{"totalRecords": n, "users"/"students": [...]}`. -/
structure UsersPage where
  totalRecords : Nat
  users : List (List (String × Val))
deriving DecidableEq

/-- The `_find_many` operation (src/services/users.py lines 31-68) given the
outcome of `db.user.find_many`: the users mapped through `_user_to_dict`, or
the empty envelope when the query raised. -/
def users_find_many (res : Except DbError (List User)) : UsersPage :=
  match res with
  | Except.ok users => { totalRecords := (users.map user_to_dict).length,
                         users := users.map user_to_dict }
  | Except.error _ => { totalRecords := 0, users := [] }

/-- The `_create_user` operation (src/services/users.py lines 71-81) given
the outcome of `db.user.create` (on the data whose password was hashed
first): the created user's dict, or the re-raised exception. -/
def users_create_user (res : Except DbError User) : Except DbError (List (String × Val)) :=
  res.map user_to_dict

/-- The `_update_user` operation (src/services/users.py lines 84-99) given
the outcome of `db.user.update`: the updated user's dict, `None` on
`RecordNotFoundError`, and any other exception re-raised. -/
def users_update_user (res : Except DbError User) :
    Except DbError (Option (List (String × Val))) :=
  match res with
  | Except.ok u => Except.ok (some (user_to_dict u))
  | Except.error DbError.recordNotFound => Except.ok none
  | Except.error (DbError.other m) => Except.error (DbError.other m)

/-- The `_update_status` operation (src/services/users.py lines 102-114)
given the outcome of `db.user.update`: the updated user's dict, or `None`
on any failure (both except branches return `None`). -/
def users_update_status (res : Except DbError User) : Option (List (String × Val)) :=
  match res with
  | Except.ok u => some (user_to_dict u)
  | Except.error _ => none

/-- The `_find_many_by_session_id` operation (src/services/users.py lines
117-157) given the outcome of the `db.user.find_many` over the attendance
filter: the students mapped through `_user_to_dict`, or the empty envelope
when the query raised. -/
def users_find_many_by_session_id (res : Except DbError (List User)) : UsersPage :=
  match res with
  | Except.ok students => { totalRecords := (students.map user_to_dict).length,
                            users := students.map user_to_dict }
  | Except.error _ => { totalRecords := 0, users := [] }

/-- The `_find_students_by_tutor_id` operation (src/services/users.py lines
184-235): empty envelope when the tutor lookup raised, found no user, or
found a non-admin; otherwise the students collected from the tutor's
sessions (the outcome of the final `db.user.find_many`, empty when no
enrollment exists) mapped through `_user_to_dict`.  Any raise yields the
empty envelope via the catch-all branch. -/
def users_find_students_by_tutor_id (tutorRes : Except DbError (Option User))
    (studentsRes : Except DbError (List User)) : UsersPage :=
  match tutorRes with
  | Except.error _ => { totalRecords := 0, users := [] }
  | Except.ok none => { totalRecords := 0, users := [] }
  | Except.ok (some tutor) =>
    if tutor.role ≠ "admin" then { totalRecords := 0, users := [] }
    else
      match studentsRes with
      | Except.error _ => { totalRecords := 0, users := [] }
      | Except.ok students => { totalRecords := (students.map user_to_dict).length,
                                users := students.map user_to_dict }

/-- The `_change_password` operation (src/services/auth.py lines 81-113):
`None` when the user is missing, the old password does not verify
(`bcrypt.checkpw`, an external check modelled by `oldOk`), or anything
raised; otherwise the literal five-field dictionary built at lines 104-110
from the updated user. -/
def auth_change_password (userRes : Except DbError (Option User)) (oldOk : Bool)
    (updatedRes : Except DbError User) : Option (List (String × Val)) :=
  match userRes with
  | Except.error _ => none
  | Except.ok none => none
  | Except.ok (some _) =>
    if oldOk then
      match updatedRes with
      | Except.error _ => none
      | Except.ok uu =>
        some [("id", Val.n uu.id), ("email", Val.s uu.email),
              ("role", Val.s uu.role), ("name", Val.s uu.name),
              ("status", Val.b uu.status)]
    else none

/-- A response dictionary that does not expose the stored password. -/
def no_password (d : List (String × Val)) : Bool :=
  ! has_key d "password"

/-! ## Helper lemmas -/

theorem ensure_connected_of_connected (env : Env) (c0 : Client) (h : c0.connected = true) :
    ensure_connected env c0 = (Except.ok (), c0, []) := by
  simp [ensure_connected, h]

theorem connect_op_ok_connected (env : Env) (c : Client) (r : Unit) (c2 : Client)
    (h : connect_op env c = (Except.ok r, c2)) : c2.connected = true := by
  simp only [connect_op] at h
  split at h
  · cases h
    rfl
  · simp at h

theorem ensure_connected_ok_connected (env : Env) (c0 : Client) :
    (ensure_connected env c0).1 = Except.ok () → (ensure_connected env c0).2.1.connected = true := by
  intro h
  cases hc : c0.connected
  · simp only [ensure_connected, hc, Bool.false_eq_true, if_false] at h ⊢
    rcases h1 : connect_op env c0 with ⟨r1, c1⟩
    rcases r1 with e1 | u1
    · rcases h2 : connect_op env (disconnect_op env c1).2 with ⟨r2, c2⟩
      rcases r2 with e2 | u2
      · simp [h1, h2] at h
      · simp only [h1, h2]
        exact connect_op_ok_connected env _ u2 c2 h2
    · simp only [h1]
      exact connect_op_ok_connected env c0 u1 c1 h1
  · simp [ensure_connected, hc]

theorem ensure_connected_no_body (env : Env) (c0 : Client) (b : Bool) :
    Event.bodyCall b ∉ (ensure_connected env c0).2.2 := by
  cases hc : c0.connected
  · rcases h1 : connect_op env c0 with ⟨r1, c1⟩
    rcases r1 with e1 | u1
    · rcases h2 : connect_op env (disconnect_op env c1).2 with ⟨r2, c2⟩
      simp [ensure_connected, hc, h1, h2]
    · simp [ensure_connected, hc, h1]
  · simp [ensure_connected, hc]

theorem repair_reconnect_no_body (env : Env) (c : Client) (b : Bool) :
    Event.bodyCall b ∉ (repair_reconnect env c).2.2 := by
  cases hc : c.connected
  · rcases h1 : connect_op env c with ⟨r, c2⟩
    simp [repair_reconnect, hc, h1]
  · rcases h1 : connect_op env (disconnect_op env c).2 with ⟨r, c2⟩
    simp [repair_reconnect, hc, h1]

theorem user_to_dict_no_password (u : User) : no_password (user_to_dict u) = true := rfl

/-! ## Concrete inputs for witnesses and counterexamples -/

/-- Oracle in which every connect and disconnect call succeeds. -/
def env_all_ok : Env := { connectOk := fun _ => true, disconnectOk := fun _ => true }

/-- Oracle in which every connect call raises and every disconnect succeeds. -/
def env_connect_fails : Env := { connectOk := fun _ => false, disconnectOk := fun _ => true }

/-- A connected client with fresh call counters. -/
def client_conn : Client := { connected := true, nConnect := 0, nDisconnect := 0 }

/-- A disconnected client with fresh call counters. -/
def client_disc : Client := { connected := false, nConnect := 0, nDisconnect := 0 }

/-- A body that raises a connection-class failure and leaves the flag alone. -/
def body_conn_fail : Bool → Except String Unit × Bool :=
  fun b => (Except.error "connection", b)

/-- A body that raises a domain-level (not-found) failure. -/
def body_not_found : Bool → Except String Unit × Bool :=
  fun b => (Except.error "record not found", b)

/-- A body that succeeds and leaves the flag alone. -/
def body_ok : Bool → Except String Unit × Bool :=
  fun b => (Except.ok (), b)

/-! ## Claim theorems -/

/-- Claim C2: under `get_db`, a body failure whose message does not match any
connection-class keyword propagates to the caller unchanged, the guard makes
no disconnect or reconnect attempt on its error path, and the client state
is exactly what the body left behind. -/
theorem claim_C2_nonconnection_propagates (α : Type) (env : Env) (c0 : Client)
    (body : Bool → Except String α × Bool) (msg : String)
    (hconn : c0.connected = true)
    (hbody : (body true).1 = Except.error msg)
    (hmsg : is_connection_class_msg msg = false) :
    get_db env c0 body =
      (Except.error (Err.bodyErr msg),
       { c0 with connected := (body true).2 },
       [Event.bodyCall true]) := by
  have hens := ensure_connected_of_connected env c0 hconn
  rcases hbt : body true with ⟨br, b2⟩
  rw [hbt] at hbody
  obtain rfl : br = Except.error msg := hbody
  simp [get_db, hens, hconn, hbt, hmsg]

/-- Witness for C2: a not-found failure under an all-ok oracle propagates
with no repair events and an unchanged client. -/
theorem claim_C2_witness :
    get_db env_all_ok client_conn body_not_found =
      (Except.error (Err.bodyErr "record not found"), client_conn, [Event.bodyCall true]) :=
  claim_C2_nonconnection_propagates Unit env_all_ok client_conn body_not_found
    "record not found" rfl rfl (by decide)

/-- Counterexample to claim C1 as stated: with a connected client, a body
failing with the connection-class message "connection", and an oracle whose
reconnect raises, the caller sees the reconnect's failure (`connectErr 0`),
not the original body failure re-raised. -/
theorem claim_C1_counterexample :
    (get_db env_connect_fails client_conn body_conn_fail).1 = Except.error (Err.connectErr 0) ∧
    (get_db env_connect_fails client_conn body_conn_fail).1 ≠
      Except.error (Err.bodyErr "connection") := by
  constructor
  · decide
  · decide

/-- Claim C1 (amended): when the body raises a connection-class failure and
the repair's reconnect succeeds, the guard performs exactly one repair cycle
(a best-effort disconnect - skipped when the client reports disconnected,
and its own errors swallowed - followed by one reconnect), leaves the client
connected, and re-raises the original failure unchanged. -/
theorem claim_C1_repair_and_reraise (α : Type) (env : Env) (c0 : Client)
    (body : Bool → Except String α × Bool) (msg : String)
    (hconn : c0.connected = true)
    (hbody : (body true).1 = Except.error msg)
    (hmsg : is_connection_class_msg msg = true)
    (hrec : env.connectOk c0.nConnect = true) :
    (get_db env c0 body).1 = Except.error (Err.bodyErr msg) ∧
    (get_db env c0 body).2.1.connected = true ∧
    (get_db env c0 body).2.2 =
      [Event.bodyCall true] ++
        (if (body true).2 then [Event.disconnectCall] else []) ++ [Event.connectCall] := by
  have hens := ensure_connected_of_connected env c0 hconn
  rcases hbt : body true with ⟨br, b2⟩
  rw [hbt] at hbody
  obtain rfl : br = Except.error msg := hbody
  rcases b2 <;>
    cases hd : env.disconnectOk c0.nDisconnect <;>
      simp [get_db, hens, hconn, hbt, hmsg, repair_reconnect, connect_op, disconnect_op, hd, hrec]

/-- Witness for the amended C1: with an all-ok oracle, a connection-class
body failure triggers disconnect + reconnect and is then re-raised. -/
theorem claim_C1_witness :
    (get_db env_all_ok client_conn body_conn_fail).1 = Except.error (Err.bodyErr "connection") ∧
    (get_db env_all_ok client_conn body_conn_fail).2.1.connected = true ∧
    (get_db env_all_ok client_conn body_conn_fail).2.2 =
      [Event.bodyCall true] ++ [Event.disconnectCall] ++ [Event.connectCall] :=
  claim_C1_repair_and_reraise Unit env_all_ok client_conn body_conn_fail "connection"
    rfl rfl (by decide) rfl

/-- Claim C9: when the guarded body succeeds (leaving the client connected,
as every query body does), `get_db` returns the body's result, performs no
disconnect, and leaves the client state unchanged - connected. -/
theorem claim_C9_success_leaves_connected (α : Type) (env : Env) (c0 : Client)
    (body : Bool → Except String α × Bool) (a : α)
    (hconn : c0.connected = true)
    (hbody : body true = (Except.ok a, true)) :
    get_db env c0 body = (Except.ok a, c0, [Event.bodyCall true]) := by
  have hens := ensure_connected_of_connected env c0 hconn
  obtain ⟨cc, nc, nd⟩ := c0
  obtain rfl : cc = true := hconn
  simp [get_db, hens, hbody]

/-- Witness for C9: a successful body under an all-ok oracle returns its
value with the client untouched and no disconnect event. -/
theorem claim_C9_witness :
    get_db env_all_ok client_conn body_ok = (Except.ok (), client_conn, [Event.bodyCall true]) :=
  claim_C9_success_leaves_connected Unit env_all_ok client_conn body_ok () rfl rfl

/-- Claim C8: if the guard's entry connect fails, exactly one
disconnect-plus-reconnect cycle is attempted; if that reconnect also fails,
the connect failure propagates and the body is never invoked.  Moreover, in
every run of `get_db`, the body only ever runs on a connected client. -/
theorem claim_C8_entry_failure_policy :
    (∀ (α : Type) (env : Env) (c0 : Client) (body : Bool → Except String α × Bool),
      c0.connected = false → env.connectOk c0.nConnect = false →
      env.connectOk (c0.nConnect + 1) = false →
      (get_db env c0 body).1 = Except.error (Err.connectErr (c0.nConnect + 1)) ∧
      (get_db env c0 body).2.2 =
        [Event.connectCall, Event.disconnectCall, Event.connectCall]) ∧
    (∀ (α : Type) (env : Env) (c0 : Client) (body : Bool → Except String α × Bool) (b : Bool),
      Event.bodyCall b ∈ (get_db env c0 body).2.2 → b = true) := by
  constructor
  · intro α env c0 body hconn h1 h2
    obtain ⟨cc, nc, nd⟩ := c0
    obtain rfl : cc = false := hconn
    dsimp only at h1 h2 ⊢
    cases hd : env.disconnectOk nd <;>
      simp [get_db, ensure_connected, connect_op, disconnect_op, h1, h2, hd]
  · intro α env c0 body b hmem
    rcases hens : ensure_connected env c0 with ⟨r, c, evs⟩
    have hnb := ensure_connected_no_body env c0 b
    rw [hens] at hnb
    rcases r with e | u
    · simp [get_db, hens] at hmem
      exact absurd hmem hnb
    · have hcc : c.connected = true := by
        have h2 := ensure_connected_ok_connected env c0 (by rw [hens])
        rw [hens] at h2
        exact h2
      rcases hbt : body c.connected with ⟨br, b2⟩
      rcases br with msg | a
      · by_cases hcls : is_connection_class_msg msg
        · rcases hrep : repair_reconnect env { c with connected := b2 } with ⟨rr, c2, evr⟩
          have hnr := repair_reconnect_no_body env { c with connected := b2 } b
          rw [hrep] at hnr
          rcases rr with e2 | u2 <;>
          · simp [get_db, hens, hbt, hcls, hrep] at hmem
            rcases hmem with hmem | hmem | hmem
            · exact absurd hmem hnb
            · rw [hmem]
              exact hcc
            · exact absurd hmem hnr
        · simp [get_db, hens, hbt, hcls] at hmem
          rcases hmem with hmem | hmem
          · exact absurd hmem hnb
          · rw [hmem]
            exact hcc
      · simp [get_db, hens, hbt] at hmem
        rcases hmem with hmem | hmem
        · exact absurd hmem hnb
        · rw [hmem]
          exact hcc

/-- Witness for C8: both connects failing on a disconnected client yield the
second connect's error with no body invocation; and a run that does invoke
the body does so with the client connected. -/
theorem claim_C8_witness :
    ((get_db env_connect_fails client_disc body_ok).1 = Except.error (Err.connectErr 1) ∧
     (get_db env_connect_fails client_disc body_ok).2.2 =
       [Event.connectCall, Event.disconnectCall, Event.connectCall]) ∧
    true = true :=
  ⟨claim_C8_entry_failure_policy.1 Unit env_connect_fails client_disc body_ok rfl rfl rfl,
   claim_C8_entry_failure_policy.2 Unit env_all_ok client_conn body_ok true (by decide)⟩

/-- Counterexample to claim C3 as stated: the synchronous auth wrapper
`login` (src/services/auth.py line 42) reaches the database through
`asyncio.run`, not through `run_in_persistent_loop`, so the submission
primitive is not the only path from synchronous callers to the client. -/
theorem claim_C3_counterexample :
    ("auth.login", SyncMech.asyncioRun) ∈ sync_db_wrappers ∧
    sync_db_wrappers.all (fun f => f.2 == SyncMech.persistentLoop) = false := by
  constructor
  · decide
  · decide

/-- Claim C3 (amended): every synchronous database-touching service function
submits through `run_in_persistent_loop`, except the three auth wrappers
(`login`, `verify_token_and_get_user`, `change_password`), which run their
unit of work on a fresh event loop via `asyncio.run`. -/
theorem claim_C3_amended_dispatch :
    sync_db_wrappers.all
      (fun f => f.2 ==
        (if f.1 ∈ auth_wrappers then SyncMech.asyncioRun else SyncMech.persistentLoop)) = true := by
  decide

/-- Claim C5: when `get_persistent_loop` must create the loop (the handle is
absent) and the spawned thread does not signal readiness within the bound,
the call raises the loop-startup error instead of returning a handle; the
bound is 5 time units. -/
theorem claim_C5_startup_timeout (s : LoopState) (readyAt : Nat)
    (habsent : s.persistent_loop = none) (hlate : loop_ready_timeout < readyAt) :
    get_persistent_loop s readyAt = Except.error "Failed to create persistent event loop" ∧
    loop_ready_timeout = 5 := by
  constructor
  · simp only [get_persistent_loop, habsent, create_loop]
    rw [if_neg (by omega)]
  · rfl

/-- Witness for C5: a fresh state whose creation thread would only become
ready at time 6 makes `get_persistent_loop` fail with the startup error. -/
theorem claim_C5_witness :
    get_persistent_loop { persistent_loop := none, loop_thread := none, next_id := 0 } 6 =
      Except.error "Failed to create persistent event loop" ∧
    loop_ready_timeout = 5 :=
  claim_C5_startup_timeout { persistent_loop := none, loop_thread := none, next_id := 0 } 6
    rfl (by decide)

/-- Claim C6: after `stop_persistent_loop`, a subsequent `get_persistent_loop`
observes the absent (or stale closed) handle and creates a fresh open loop,
and a subsequent `run_in_persistent_loop` submission succeeds again with its
unit of work's result. -/
theorem claim_C6_restart_idempotence (s : LoopState) (readyAt : Nat) (a : Nat)
    (hready : readyAt ≤ loop_ready_timeout) :
    get_persistent_loop (stop_persistent_loop s) readyAt =
      Except.ok ({ id := (stop_persistent_loop s).next_id, closed := false },
        { persistent_loop := some { id := (stop_persistent_loop s).next_id, closed := false },
          loop_thread := some (stop_persistent_loop s).next_id,
          next_id := (stop_persistent_loop s).next_id + 1 }) ∧
    run_in_persistent_loop (stop_persistent_loop s) readyAt (Except.ok a) =
      Except.ok (a,
        { persistent_loop := some { id := (stop_persistent_loop s).next_id, closed := false },
          loop_thread := some (stop_persistent_loop s).next_id,
          next_id := (stop_persistent_loop s).next_id + 1 }) := by
  rcases s with ⟨pl, lt, ni⟩
  rcases pl with _ | l
  · simp [stop_persistent_loop, get_persistent_loop, create_loop, run_in_persistent_loop, hready]
  · rcases l with ⟨i, cl⟩
    rcases cl <;>
      simp [stop_persistent_loop, get_persistent_loop, create_loop, run_in_persistent_loop, hready]

/-- Witness for C6: stopping a live loop and submitting again creates a
fresh loop and returns the work's value. -/
theorem claim_C6_witness :
    get_persistent_loop
        (stop_persistent_loop
          { persistent_loop := some { id := 7, closed := false }, loop_thread := some 7,
            next_id := 8 }) 0 =
      Except.ok ({ id := 8, closed := false },
        { persistent_loop := some { id := 8, closed := false }, loop_thread := some 8,
          next_id := 9 }) ∧
    run_in_persistent_loop
        (stop_persistent_loop
          { persistent_loop := some { id := 7, closed := false }, loop_thread := some 7,
            next_id := 8 }) 0 (Except.ok 5) =
      Except.ok (5,
        { persistent_loop := some { id := 8, closed := false }, loop_thread := some 8,
          next_id := 9 }) :=
  claim_C6_restart_idempotence
    { persistent_loop := some { id := 7, closed := false }, loop_thread := some 7, next_id := 8 }
    0 5 (by decide)

/-- Claim C7: `stop_persistent_loop` on a state with no loop returns the
state unchanged, and repeating it after any stop changes nothing more. -/
theorem claim_C7_stop_noop_idempotent :
    (∀ s : LoopState, s.persistent_loop = none → stop_persistent_loop s = s) ∧
    (∀ s : LoopState, stop_persistent_loop (stop_persistent_loop s) = stop_persistent_loop s) := by
  constructor
  · intro s h
    simp [stop_persistent_loop, h]
  · intro s
    rcases s with ⟨pl, lt, ni⟩
    rcases pl with _ | ⟨i, cl⟩
    · simp [stop_persistent_loop]
    · rcases cl <;> simp [stop_persistent_loop]

/-- Witness for C7: stopping with no loop ever created is a no-op, and a
second stop after stopping a live loop changes nothing. -/
theorem claim_C7_witness :
    stop_persistent_loop { persistent_loop := none, loop_thread := none, next_id := 0 } =
      { persistent_loop := none, loop_thread := none, next_id := 0 } ∧
    stop_persistent_loop
        (stop_persistent_loop
          { persistent_loop := some { id := 3, closed := false }, loop_thread := some 3,
            next_id := 4 }) =
      stop_persistent_loop
        { persistent_loop := some { id := 3, closed := false }, loop_thread := some 3,
          next_id := 4 } :=
  ⟨claim_C7_stop_noop_idempotent.1 { persistent_loop := none, loop_thread := none, next_id := 0 } rfl,
   claim_C7_stop_noop_idempotent.2
     { persistent_loop := some { id := 3, closed := false }, loop_thread := some 3, next_id := 4 }⟩

/-- Claim C4: in every reachable state of the concurrent
`get_persistent_loop` model, at most one creation has ever happened, the
check-and-create sequence is mutually exclusive, and all finished callers
hold the same non-absent loop handle; moreover any finished caller implies
exactly one creation. -/
theorem claim_C4_single_creation {n : Nat} (s : CState n)
    (h : Relation.ReflTransGen LoopStep (initCState n) s) :
    s.created ≤ 1 ∧
    (∀ i j : Fin n, inCS (s.pcs i) = true → inCS (s.pcs j) = true → i = j) ∧
    (∀ (i j : Fin n) (v w : Option Nat),
      s.pcs i = TPC.done v → s.pcs j = TPC.done w → v = w ∧ v ≠ none) ∧
    (∀ (i : Fin n) (v : Option Nat), s.pcs i = TPC.done v → s.created = 1) := by
  obtain ⟨h1, h2, h3, h4, h5⟩ := loopInv_reachable h
  refine ⟨?_, ?_, ?_, ?_⟩
  · rw [h2]
    split <;> omega
  · intro i j hi hj
    have hli := h1 i hi
    have hlj := h1 j hj
    rw [hli] at hlj
    exact Option.some.inj hlj
  · intro i j v w hi hj
    obtain ⟨hv, hvn⟩ := h5 i v hi
    obtain ⟨hw, _⟩ := h5 j w hj
    exact ⟨by rw [hv, hw], hvn⟩
  · intro i v hi
    obtain ⟨hv, hvn⟩ := h5 i v hi
    have hs : s.loop.isSome = true := Option.isSome_iff_ne_none.mpr (hv ▸ hvn)
    simp [h2, hs]

/-- State of the one-thread run after acquiring the lock. -/
def c4s1 : CState 1 :=
  { initCState 1 with lock := some 0, pcs := Function.update (initCState 1).pcs 0 TPC.check }

/-- State after the check observed the loop absent. -/
def c4s2 : CState 1 := { c4s1 with pcs := Function.update c4s1.pcs 0 TPC.create }

/-- State after the creation step. -/
def c4s3 : CState 1 :=
  { c4s2 with loop := some c4s2.created, created := c4s2.created + 1,
              pcs := Function.update c4s2.pcs 0 TPC.unlock }

/-- State after releasing the lock. -/
def c4s4 : CState 1 := { c4s3 with lock := none, pcs := Function.update c4s3.pcs 0 TPC.reading }

/-- Final state: the thread returned the loop it read. -/
def c4s5 : CState 1 := { c4s4 with pcs := Function.update c4s4.pcs 0 (TPC.done c4s4.loop) }

theorem c4_run : Relation.ReflTransGen LoopStep (initCState 1) c4s5 := by
  have s1 : LoopStep (initCState 1) c4s1 := LoopStep.acquire (initCState 1) 0 rfl rfl
  have s2 : LoopStep c4s1 c4s2 :=
    LoopStep.checkAbsent c4s1 0 (by simp [c4s1, initCState]) rfl rfl
  have s3 : LoopStep c4s2 c4s3 :=
    LoopStep.doCreate c4s2 0 (by simp [c4s2, c4s1, initCState]) rfl
  have s4 : LoopStep c4s3 c4s4 :=
    LoopStep.release c4s3 0 (by simp [c4s3, c4s2, c4s1, initCState]) rfl
  have s5 : LoopStep c4s4 c4s5 :=
    LoopStep.readLoop c4s4 0 (by simp [c4s4, c4s3, c4s2, c4s1, initCState])
  exact Relation.ReflTransGen.tail
    (Relation.ReflTransGen.tail
      (Relation.ReflTransGen.tail
        (Relation.ReflTransGen.tail
          (Relation.ReflTransGen.tail Relation.ReflTransGen.refl s1) s2) s3) s4) s5

/-- Witness for C4: in the concrete run where one thread executes the whole
call, exactly one creation has happened. -/
theorem claim_C4_witness : c4s5.created = 1 :=
  (claim_C4_single_creation c4s5 c4_run).2.2.2 0 (some 0)
    (by simp [c4s5, c4s4, c4s3, c4s2, c4s1, initCState])

/-- Check that an optional response payload hides the password. -/
def opt_payload_ok (r : Option (List (String × Val))) : Bool :=
  r.all no_password

/-- Check that a fallible response payload hides the password. -/
def except_payload_ok {ε : Type} (r : Except ε (List (String × Val))) : Bool :=
  match r with
  | Except.ok d => no_password d
  | Except.error _ => true

/-- Check that a fallible optional response payload hides the password. -/
def except_opt_payload_ok {ε : Type} (r : Except ε (Option (List (String × Val)))) : Bool :=
  match r with
  | Except.ok o => o.all no_password
  | Except.error _ => true

theorem map_user_to_dict_all_no_password (l : List User) :
    (l.map user_to_dict).all no_password = true := by
  induction l with
  | nil => rfl
  | cons u t ih => simp [ih, user_to_dict_no_password u]

/-- Claim C10: every user dictionary produced by the user-facing operations
(find_one, find_many, create_user, update_user, update_status,
find_many_by_session_id, find_students_by_tutor_id, change_password) omits
the stored password field, whatever the driver returned. -/
theorem claim_C10_password_never_exposed :
    (∀ r : Except DbError (Option User), opt_payload_ok (users_find_one r) = true) ∧
    (∀ r : Except DbError (List User), (users_find_many r).users.all no_password = true) ∧
    (∀ r : Except DbError User, except_payload_ok (users_create_user r) = true) ∧
    (∀ r : Except DbError User, except_opt_payload_ok (users_update_user r) = true) ∧
    (∀ r : Except DbError User, opt_payload_ok (users_update_status r) = true) ∧
    (∀ r : Except DbError (List User),
      (users_find_many_by_session_id r).users.all no_password = true) ∧
    (∀ (rt : Except DbError (Option User)) (rs : Except DbError (List User)),
      (users_find_students_by_tutor_id rt rs).users.all no_password = true) ∧
    (∀ (ru : Except DbError (Option User)) (okb : Bool) (rup : Except DbError User),
      opt_payload_ok (auth_change_password ru okb rup) = true) := by
  refine ⟨?_, ?_, ?_, ?_, ?_, ?_, ?_, ?_⟩
  · intro r
    rcases r with e | o
    · rfl
    · rcases o with _ | u
      · rfl
      · exact user_to_dict_no_password u
  · intro r
    rcases r with e | us
    · rfl
    · exact map_user_to_dict_all_no_password us
  · intro r
    rcases r with e | u
    · rfl
    · exact user_to_dict_no_password u
  · intro r
    rcases r with e | u
    · rcases e with _ | m
      · rfl
      · rfl
    · exact user_to_dict_no_password u
  · intro r
    rcases r with e | u
    · rfl
    · exact user_to_dict_no_password u
  · intro r
    rcases r with e | us
    · rfl
    · exact map_user_to_dict_all_no_password us
  · intro rt rs
    rcases rt with e | o
    · rfl
    · rcases o with _ | tutor
      · rfl
      · by_cases hrole : tutor.role = "admin"
        · rcases rs with e2 | students
          · simp [users_find_students_by_tutor_id, hrole]
          · simp [users_find_students_by_tutor_id, hrole,
                  map_user_to_dict_all_no_password]
        · simp [users_find_students_by_tutor_id, hrole]
  · intro ru okb rup
    rcases ru with e | o
    · rfl
    · rcases o with _ | u
      · rfl
      · rcases okb
        · rfl
        · rcases rup with e2 | uu
          · rfl
          · rfl

end Tutoriapp
